import Mathlib

/-!
# Reminder Escalation Engine — shallow embedding

This file embeds the reminder escalation engine of the todo-list repository
(`src/tasks/reminders.py` together with the model/enum/service code it uses)
as executable Lean definitions, and proves properties of that embedding.

Modelling conventions:
* Timestamps (`datetime`) are integers counting minutes since the Unix epoch,
  in UTC.  `timedelta(minutes = m)` is the integer `m`, one hour is `60`,
  one day is `1440`.
* Times of day (`datetime.time`, used for quiet hours) are minutes after
  local midnight, in `[0, 1440)`.  Python compares `time` objects
  lexicographically by (hour, minute, ...), which agrees with comparing
  minutes-after-midnight.
* IANA timezones are modelled as fixed UTC offsets in minutes
  (`now.astimezone(tz)` adds the offset); daylight-saving transitions are
  outside the model.
* Database rows are records in lists; SQLAlchemy `query(...).first()` is
  `List.find?`.  A transaction rollback after a raised exception returns the
  store as of the last commit.
* Python truthiness of optional strings (`None` and `""` are falsy) and of
  optional integers (`None` and `0` are falsy) is modelled explicitly by
  `pyTruthyStr` / `pyOrStr` / `pyOrNat`.
-/

/-- `ReminderStatus` enum from `src/models/enums.py`. -/
inductive ReminderStatus where
  | pending
  | acknowledged
  | completed
  | escaped
deriving DecidableEq, Repr

/-- `RecurrencePattern` enum from `src/models/enums.py`. -/
inductive RecurrencePattern where
  | daily
  | weekly
  | monthly
deriving DecidableEq, Repr

/-- `NotificationChannel` enum from `src/models/enums.py`. -/
inductive NotificationChannel where
  | push
  | sms
  | call
  | app
deriving DecidableEq, Repr

/-- `NotificationChannel(channel)` on a raw string; `none` models the
`ValueError` raised on an unknown channel string. -/
def NotificationChannel.ofString : String → Option NotificationChannel
  | "push" => some .push
  | "sms" => some .sms
  | "call" => some .call
  | "app" => some .app
  | _ => none

/-- Python truthiness of an optional string: `None` and `""` are falsy. -/
def pyTruthyStr : Option String → Bool
  | none => false
  | some s => !(s == "")

/-- `a or b` for an optional string `a` under Python truthiness. -/
def pyOrStr : Option String → String → String
  | none, d => d
  | some s, d => if s == "" then d else s

/-- `a or b` for an optional integer `a` under Python truthiness
(`None` and `0` are falsy). -/
def pyOrNat : Option Nat → Nat → Nat
  | none, d => d
  | some n, d => if n == 0 then d else n

/-- Digit run of a Python integer literal after the first digit: single
underscores are allowed between digits only. -/
def pyDigitsAux : List Char → Nat → Option Nat
  | [], acc => some acc
  | '_' :: c :: rest, acc =>
      if c.isDigit then pyDigitsAux rest (acc * 10 + (c.toNat - 48)) else none
  | ['_'], _ => none
  | c :: rest, acc =>
      if c.isDigit then pyDigitsAux rest (acc * 10 + (c.toNat - 48)) else none

/-- Nonempty digit run (with embedded single underscores) of a Python
integer literal. -/
def pyDigits : List Char → Option Nat
  | [] => none
  | c :: rest => if c.isDigit then pyDigitsAux rest (c.toNat - 48) else none

/-- Python's `int(s)`: optional surrounding whitespace, an optional sign,
then a digit run.  `none` models the `ValueError` on anything else. -/
def pyInt (s : String) : Option Int :=
  let cs := ((s.toList.dropWhile Char.isWhitespace).reverse.dropWhile
    Char.isWhitespace).reverse
  match cs with
  | '+' :: rest => (pyDigits rest).map Int.ofNat
  | '-' :: rest => (pyDigits rest).map (fun n => -(Int.ofNat n : Int))
  | rest => (pyDigits rest).map Int.ofNat

/-- `_calculate_reminder_time(due_date, offset)` from
`src/tasks/reminders.py` (lines 417–446): parse the trailing unit character
and the integer prefix of the offset string and subtract the corresponding
duration from the due date; on an empty offset, an unparseable integer
prefix, or an unknown unit, return the due date unchanged. -/
def calculate_reminder_time (due_date : Int) (offset : String) : Int :=
  if offset == "" then due_date
  else
    let unit := ((offset.toList.getLast?).getD ' ').toLower
    match pyInt (String.mk offset.toList.dropLast) with
    | none => due_date
    | some value =>
      if unit == 'm' then due_date - value
      else if unit == 'h' then due_date - 60 * value
      else if unit == 'd' then due_date - 1440 * value
      else due_date

/-- UTC offset (minutes) modelling the IANA zone "America/Toronto"
(standard time; DST is outside the model). -/
def americaTorontoOffset : Int := -300

/-- Task `Item` row (`src/models/item.py`), restricted to the columns the
reminder engine reads or writes. -/
structure Item where
  id : Nat
  listId : Nat
  name : String
  description : Option String := none
  dueDate : Option Int := none
  reminderAt : Option Int := none
  reminderOffset : Option String := none
  recurrencePattern : Option RecurrencePattern := none
  recurrenceParentId : Option Nat := none
  checked : Bool := false
  completedAt : Option Int := none
  deletedAt : Option Int := none
  createdBy : Nat := 0
deriving DecidableEq, Repr

/-- `ReminderState` row (`src/models/reminder_state.py`). -/
structure ReminderState where
  id : Nat
  itemId : Nat
  currentEscalationLevel : Nat := 0
  lastEscalationAt : Option Int := none
  nextEscalationAt : Option Int := none
  status : ReminderStatus := .pending
deriving DecidableEq, Repr

/-- The classifier's JSON output (or the deterministic fallback dict built
in `process_reminder_response`).  A JSON `null` value is identified with an
absent key, as both are read back only through `dict.get`. -/
structure LLMResult where
  action : Option String := none
  newReminderAt : Option String := none
  pushbackMessage : Option String := none
deriving DecidableEq, Repr

/-- `ReminderResponse` row (`src/models/reminder_response.py`): append-only
log of inbound replies. -/
structure ReminderResponse where
  reminderStateId : Nat
  channel : NotificationChannel
  rawResponse : String
  llmInterpretation : LLMResult
deriving DecidableEq, Repr

/-- The raw `escalation_timing` JSON dict stored on the settings row; each
key may be absent. -/
structure EscalationTiming where
  pushToSms : Option Nat := none
  smsToCall : Option Nat := none
  callRepeat : Option Nat := none
deriving DecidableEq, Repr

/-- Resolved escalation timing (minutes between levels). -/
structure Timing where
  pushToSms : Nat
  smsToCall : Nat
  callRepeat : Nat
deriving DecidableEq, Repr

/-- `UserNotificationSettings` row
(`src/models/user_notification_settings.py`), with the column defaults
(`escape_safe_word = "abort"`, `quiet_hours_timezone = "America/Toronto"`).
Quiet-hours start/end are minutes after local midnight; the timezone column
is modelled as a UTC offset. -/
structure UserNotificationSettings where
  userId : Nat
  phoneNumber : Option String := none
  accountabilityPartnerPhone : Option String := none
  escapeSafeWord : Option String := some "abort"
  escalationTiming : Option EscalationTiming := none
  quietHoursStart : Option Nat := none
  quietHoursEnd : Option Nat := none
  quietHoursTzOffset : Option Int := some americaTorontoOffset
deriving DecidableEq, Repr

/-- `List` row: only the owner matters to the reminder engine. -/
structure ListRec where
  id : Nat
  ownerId : Nat
deriving DecidableEq, Repr

/-- `User` row: only the display fields used in the accountability SMS. -/
structure UserRec where
  id : Nat
  name : Option String := none
  email : String := ""
deriving DecidableEq, Repr

/-- The relational store the reminder engine reads and writes. -/
structure Store where
  items : List Item := []
  lists : List ListRec := []
  users : List UserRec := []
  reminders : List ReminderState := []
  responses : List ReminderResponse := []
  settings : List UserNotificationSettings := []
  nextItemId : Nat := 1
  nextReminderId : Nat := 1
deriving DecidableEq, Repr

/-- A channel-client invocation (`NotificationService.send_push` /
`send_sms` / `initiate_call`).  Whether the provider reports success is
decided by the environment; the event records the attempt. -/
inductive SendEvent where
  | push (userId : Nat) (title body : String) (itemId : Option Nat)
      (url : Option String)
  | sms (phone : String) (message : String) (itemId : Option Nat)
  | call (phone : String) (taskName : String) (itemId : Nat)
      (baseUrl : String)
deriving DecidableEq, Repr

/-- Outcome of the accountability classifier call
(`LLMService.generate_json`): either the call raises (network error or
unparseable JSON) or it yields a parsed dict. -/
inductive LLMOutcome where
  | failure
  | success (result : LLMResult)

/-- External environment of one engine entry point: the current UTC time,
the classifier outcome, `datetime.fromisoformat` applied to the
`Z`-normalized timestamp string, and per-send provider success. -/
structure Env where
  now : Int
  llm : LLMOutcome := .failure
  parseDt : String → Option Int := fun _ => none
  sendOk : SendEvent → Bool := fun _ => false

/-- `_is_in_quiet_hours(settings, now)` from `src/tasks/reminders.py`
(lines 368–386): convert `now` to the user's local time of day and test it
against the configured window, supporting overnight windows where
start > end. -/
def is_in_quiet_hours (s : UserNotificationSettings) (now : Int) : Bool :=
  match s.quietHoursStart, s.quietHoursEnd with
  | some qstart, some qend =>
    let localTime : Nat := ((now + s.quietHoursTzOffset.getD 0) % 1440).toNat
    if qend < qstart then
      decide (qstart ≤ localTime ∨ localTime < qend)
    else
      decide (qstart ≤ localTime ∧ localTime < qend)
  | _, _ => false

/-- `_get_escalation_timing(settings)` from `src/tasks/reminders.py`
(lines 389–401): user-configured intervals with per-key defaults
`{push_to_sms: 5, sms_to_call: 15, call_repeat: 30}`. -/
def get_escalation_timing (settings : Option UserNotificationSettings) :
    Timing :=
  match settings with
  | none => ⟨5, 15, 30⟩
  | some s =>
    match s.escalationTiming with
    | none => ⟨5, 15, 30⟩
    | some t => ⟨t.pushToSms.getD 5, t.smsToCall.getD 15, t.callRepeat.getD 30⟩

/-- Rendering of a local time of day, standing in for
`strftime("%I:%M %p").lstrip("0")`. -/
def formatClockTime (m : Int) : String :=
  let mm : Nat := (m % 1440).toNat
  let h24 := mm / 60
  let mins := mm % 60
  let ampm := if h24 < 12 then "AM" else "PM"
  let h12 := if h24 % 12 == 0 then 12 else h24 % 12
  toString h12 ++ ":" ++ (if mins < 10 then "0" else "") ++ toString mins
    ++ " " ++ ampm

/-- `_get_reminder_body(item, timezone)` from `src/tasks/reminders.py`
(lines 404–414).  `none` for the offset models an unresolvable timezone,
whose `except` branch formats the UTC value. -/
def get_reminder_body (item : Item) (tzOffset : Option Int) : String :=
  match item.dueDate with
  | some d => "Due at " ++ formatClockTime (d + tzOffset.getD 0)
  | none => "Time to complete this task"

/-- Rendering of a timestamp, standing in for `datetime.isoformat()`. -/
def iso_of_time (t : Int) : String := toString t

/-- Update the reminder row with the given id in place. -/
def updateReminder (db : Store) (rid : Nat)
    (f : ReminderState → ReminderState) : Store :=
  { db with
    reminders := db.reminders.map (fun r => if r.id == rid then f r else r) }

/-- Update the item row with the given id in place. -/
def updateItem (db : Store) (iid : Nat) (f : Item → Item) : Store :=
  { db with
    items := db.items.map (fun it => if it.id == iid then f it else it) }

/-- Result dict of `schedule_reminder`. -/
structure ScheduleResult where
  error : Option String := none
  reminderId : Option Nat := none
  nextEscalationAt : Option Int := none
deriving DecidableEq, Repr

/-- `schedule_reminder(item_id)` from `src/tasks/reminders.py`
(lines 299–365): compute the first-notification time as `reminder_at` if
set, else `due_date` minus `reminder_offset` when both are set, else
`due_date`, else report an error; then update the existing PENDING
`ReminderState` for the item in place (resetting the level to 0) or create
a fresh one. -/
def schedule_reminder (db : Store) (itemId : Nat) : Store × ScheduleResult :=
  match db.items.find? (fun it => it.id == itemId) with
  | none => (db, { error := some "Item not found" })
  | some item =>
    let timeOpt : Option Int :=
      match item.reminderAt with
      | some t => some t
      | none =>
        match item.dueDate with
        | some d =>
          if pyTruthyStr item.reminderOffset then
            some (calculate_reminder_time d (item.reminderOffset.getD ""))
          else
            some d
        | none => none
    match timeOpt with
    | none => (db, { error := some "No due date or reminder time set" })
    | some reminderTime =>
      match db.reminders.find?
          (fun r => r.itemId == itemId && r.status == ReminderStatus.pending) with
      | some existing =>
        (updateReminder db existing.id (fun r =>
          { r with nextEscalationAt := some reminderTime,
                   currentEscalationLevel := 0 }),
         { reminderId := some existing.id,
           nextEscalationAt := some reminderTime })
      | none =>
        let newR : ReminderState :=
          { id := db.nextReminderId, itemId := itemId,
            currentEscalationLevel := 0,
            nextEscalationAt := some reminderTime,
            status := .pending }
        ({ db with reminders := db.reminders ++ [newR],
                   nextReminderId := db.nextReminderId + 1 },
         { reminderId := some newR.id,
           nextEscalationAt := some reminderTime })

/-- Statistics dict returned by `process_escalations`. -/
structure EscalationStats where
  processed : Nat := 0
  pushSent : Nat := 0
  smsSent : Nat := 0
  callsInitiated : Nat := 0
deriving DecidableEq, Repr

/-- The SQL filter of `process_escalations`: PENDING and
`next_escalation_at <= now` (a NULL timestamp never satisfies the
comparison). -/
def reminder_due (now : Int) (r : ReminderState) : Bool :=
  r.status == ReminderStatus.pending &&
    (match r.nextEscalationAt with
     | some t => decide (t ≤ now)
     | none => false)

/-- One iteration of the `process_escalations` loop
(`src/tasks/reminders.py` lines 47–136) on the reminder with id `rid`.
`none` models an exception raised mid-iteration (only possible when the
item's owning list row is missing): it aborts the whole tick, rolling back
the uncommitted changes of this iteration. -/
def escalation_step (env : Env) (rid : Nat)
    (acc : Store × List SendEvent × EscalationStats) :
    Option (Store × List SendEvent × EscalationStats) :=
  let (db, evs, stats) := acc
  match db.reminders.find? (fun r => r.id == rid) with
  | none => some acc
  | some reminder =>
    match db.items.find? (fun it => it.id == reminder.itemId) with
    | none =>
      some (updateReminder db rid (fun r => { r with status := .completed }),
        evs, stats)
    | some item =>
      if item.checked || item.deletedAt.isSome then
        some (updateReminder db rid (fun r => { r with status := .completed }),
          evs, stats)
      else
        match db.lists.find? (fun l => l.id == item.listId) with
        | none => none
        | some listObj =>
          let userId := listObj.ownerId
          let userSettings := db.settings.find? (fun s => s.userId == userId)
          let inQuiet :=
            match userSettings with
            | some s => is_in_quiet_hours s env.now
            | none => false
          if inQuiet then some (db, evs, stats)
          else
            let timing := get_escalation_timing userSettings
            let userTz : Option Int :=
              match userSettings with
              | some s => s.quietHoursTzOffset
              | none => some americaTorontoOffset
            if reminder.currentEscalationLevel == 0 then
              let ev := SendEvent.push userId ("Reminder: " ++ item.name)
                (get_reminder_body item userTz) (some item.id)
                (some ("/list/" ++ toString listObj.id ++ "?respond="
                  ++ toString item.id))
              let stats :=
                if env.sendOk ev then
                  { stats with pushSent := stats.pushSent + 1 }
                else stats
              let db := updateReminder db rid (fun r =>
                { r with currentEscalationLevel := 1,
                         lastEscalationAt := some env.now,
                         nextEscalationAt :=
                           some (env.now + (timing.pushToSms : Int)) })
              some (db, evs ++ [ev],
                { stats with processed := stats.processed + 1 })
            else if reminder.currentEscalationLevel == 1 then
              let phone := match userSettings with
                | some s => if pyTruthyStr s.phoneNumber then s.phoneNumber
                            else none
                | none => none
              let newEvs :=
                match phone, userSettings with
                | some p, some s =>
                  [SendEvent.sms p ("Reminder: " ++ item.name
                    ++ ". Reply with when you\x27ll do it, or \x27"
                    ++ pyOrStr s.escapeSafeWord "abort"
                    ++ "\x27 to escape.") (some item.id)]
                | _, _ => []
              let stats :=
                match newEvs with
                | [ev] => if env.sendOk ev then
                    { stats with smsSent := stats.smsSent + 1 }
                  else stats
                | _ => stats
              let db := updateReminder db rid (fun r =>
                { r with currentEscalationLevel := 2,
                         lastEscalationAt := some env.now,
                         nextEscalationAt :=
                           some (env.now + (timing.smsToCall : Int)) })
              some (db, evs ++ newEvs,
                { stats with processed := stats.processed + 1 })
            else if reminder.currentEscalationLevel == 2 then
              let phone := match userSettings with
                | some s => if pyTruthyStr s.phoneNumber then s.phoneNumber
                            else none
                | none => none
              let newEvs :=
                match phone with
                | some p =>
                  [SendEvent.call p item.name item.id "https://thiemnet.ca"]
                | none => []
              let stats :=
                match newEvs with
                | [ev] => if env.sendOk ev then
                    { stats with callsInitiated := stats.callsInitiated + 1 }
                  else stats
                | _ => stats
              let db := updateReminder db rid (fun r =>
                { r with lastEscalationAt := some env.now,
                         nextEscalationAt :=
                           some (env.now + (timing.callRepeat : Int)) })
              some (db, evs ++ newEvs,
                { stats with processed := stats.processed + 1 })
            else
              let db := updateReminder db rid (fun r =>
                { r with lastEscalationAt := some env.now })
              some (db, evs, { stats with processed := stats.processed + 1 })

/-- Run the escalation loop over the listed reminder ids; a raised
exception (`escalation_step` returning `none`) aborts the tick, keeping the
changes committed by earlier iterations. -/
def run_escalations (env : Env) :
    List Nat → Store × List SendEvent × EscalationStats →
    Store × List SendEvent × EscalationStats
  | [], acc => acc
  | rid :: rest, acc =>
    match escalation_step env rid acc with
    | none => acc
    | some acc2 => run_escalations env rest acc2

/-- `process_escalations()` from `src/tasks/reminders.py` (lines 20–147):
one scheduler tick.  Queries the PENDING reminders whose
`next_escalation_at` has passed and drives each through one step of the
escalation ladder. -/
def process_escalations (env : Env) (db : Store) :
    Store × List SendEvent × EscalationStats :=
  let dueIds := (db.reminders.filter (reminder_due env.now)).map (·.id)
  run_escalations env dueIds (db, [], {})

/-- `NotificationService.get_or_create_user_settings(db, user_id)`
(`src/services/notification_service.py` lines 218–226): return the user's
settings row, creating one with the column defaults (and committing it) if
absent. -/
def get_or_create_user_settings (db : Store) (userId : Nat) :
    Store × UserNotificationSettings :=
  match db.settings.find? (fun s => s.userId == userId) with
  | some s => (db, s)
  | none =>
    let s : UserNotificationSettings := { userId := userId }
    ({ db with settings := db.settings ++ [s] }, s)

/-- The deterministic fallback dict built in `process_reminder_response`
when the classifier call raises (`src/tasks/reminders.py` lines 206–211). -/
def fallback_llm_result : LLMResult :=
  { action := some "pushback",
    pushbackMessage := some "I didn\x27t understand. When will you do this task?" }

/-- `_create_next_recurrence(db, item)` from `src/tasks/reminders.py`
(lines 449–488): for a recurring item with a due date, create the successor
item (daily → +1 day, weekly → +7 days, monthly → +30 days), carrying
forward name, description, offset, pattern and the root
`recurrence_parent_id`, and enqueue `schedule_reminder` for it.  Returns
the store, the enqueued `schedule_reminder` item ids and the new item id. -/
def create_next_recurrence (db : Store) (item : Item) :
    Store × List Nat × Option Nat :=
  match item.recurrencePattern, item.dueDate with
  | some pattern, some due =>
    let nextDue : Int :=
      match pattern with
      | .daily => due + 1440
      | .weekly => due + 7 * 1440
      | .monthly => due + 30 * 1440
    let newItem : Item :=
      { id := db.nextItemId,
        listId := item.listId,
        name := item.name,
        description := item.description,
        dueDate := some nextDue,
        reminderOffset := item.reminderOffset,
        recurrencePattern := item.recurrencePattern,
        recurrenceParentId := some (pyOrNat item.recurrenceParentId item.id),
        createdBy := item.createdBy }
    ({ db with items := db.items ++ [newItem],
               nextItemId := db.nextItemId + 1 },
     [newItem.id], some newItem.id)
  | _, _ => (db, [], none)

/-- Result dict of `process_reminder_response`. -/
structure RespResult where
  error : Option String := none
  action : Option String := none
  newReminderAt : Option String := none
  pushbackMessage : Option String := none
deriving DecidableEq, Repr

/-- The dispatch logic written in
`process_reminder_response(reminder_state_id, channel, raw_response)`,
`src/tasks/reminders.py` lines 150–296, read AS IF the classifier call at
line 201 were awaited and so could either yield a dict or raise
(`Env.llm`).  In the program as written that reading is counterfactual:
`LLMService.generate_json` is an async coroutine function called without
`await`, so every run raises `AttributeError` at line 222 before this
dispatch — `process_reminder_response_runtime` below is the faithful
model of the actual control flow, and behavioural claims about reply
processing are settled against it.  This definition is kept for the
PENDING-row invariant, a property it can only make harder, not easier:
the real path rolls back and leaves the reminder table untouched, while
this one performs all the writes the dead branches would.
Returns the store, the channel sends attempted, the item
ids for which `schedule_reminder.delay` was enqueued, and the result dict.
An exception on a missing relation rolls back to the last committed state
(the settings row creation commits inside `get_or_create_user_settings`).
The `ReminderResponse` row is committed with the final value of the
`llm_result` dict, which the row aliases and which the failed-reschedule
branch mutates. -/
def process_reminder_response (env : Env) (db : Store)
    (reminderStateId : Nat) (channel : String) (rawResponse : String) :
    Store × List SendEvent × List Nat × RespResult :=
  match db.reminders.find? (fun r => r.id == reminderStateId) with
  | none => (db, [], [], { error := some "Reminder state not found" })
  | some reminder =>
  match db.items.find? (fun it => it.id == reminder.itemId) with
  | none => (db, [], [], { error := some "Item not found" })
  | some item =>
  match db.lists.find? (fun l => l.id == item.listId) with
  | none => (db, [], [], { error := some "owning list row missing" })
  | some listObj =>
    let userId := listObj.ownerId
    let (db1, userSettings) := get_or_create_user_settings db userId
    match NotificationChannel.ofString channel with
    | none => (db1, [], [], { error := some "invalid channel" })
    | some ch =>
      let llmInit : LLMResult :=
        match env.llm with
        | .failure => fallback_llm_result
        | .success r => r
      let action0 := llmInit.action.getD "pushback"
      let result0 : RespResult := { action := some action0 }
      -- branch outcomes: store, sends, enqueued ids, the (possibly updated)
      -- local `action` variable, the (possibly mutated) `llm_result` dict,
      -- and the result dict; `none` is a raised exception (rollback to db1)
      let branch :
          Option (Store × List SendEvent × List Nat × String × LLMResult
            × RespResult) :=
        if action0 == "complete" then
          let db2 := updateReminder db1 reminder.id
            (fun r => { r with status := .completed })
          let db2 := updateItem db2 item.id
            (fun it => { it with checked := true,
                                 completedAt := some env.now })
          if item.recurrencePattern.isSome then
            let (db3, queued, _) := create_next_recurrence db2 item
            some (db3, [], queued, action0, llmInit, result0)
          else
            some (db2, [], [], action0, llmInit, result0)
        else if action0 == "reschedule" then
          if pyTruthyStr llmInit.newReminderAt then
            let s := llmInit.newReminderAt.getD ""
            match env.parseDt s with
            | some t =>
              let db2 := updateReminder db1 reminder.id
                (fun r => { r with nextEscalationAt := some t,
                                   currentEscalationLevel := 0 })
              some (db2, [], [], action0, llmInit,
                { result0 with newReminderAt := some s })
            | none =>
              let badTimeMsg :=
                "I couldn\x27t understand that time. When exactly will you do it?"
              some (db1, [], [], "pushback",
                { llmInit with pushbackMessage := some badTimeMsg },
                result0)
          else
            some (db1, [], [], action0, llmInit, result0)
        else if action0 == "escape" then
          let db2 := updateReminder db1 reminder.id
            (fun r => { r with status := .escaped })
          if pyTruthyStr userSettings.accountabilityPartnerPhone then
            match db1.users.find? (fun u => u.id == userId) with
            | none => none
            | some owner =>
              let msg := pyOrStr owner.name owner.email
                ++ " used their safe word to abandon task: \x27"
                ++ item.name ++ "\x27 (was due: "
                ++ (match item.dueDate with
                    | some d => iso_of_time d
                    | none => "No due date")
                ++ ")"
              some (db2,
                [SendEvent.sms
                  (userSettings.accountabilityPartnerPhone.getD "") msg none],
                [], action0, llmInit, result0)
          else
            some (db2, [], [], action0, llmInit, result0)
        else
          some (db1, [], [], action0, llmInit, result0)
      match branch with
      | none => (db1, [], [], { error := some "owner row missing" })
      | some (db2, evs1, queued, action1, llmFinal, result1) =>
        let (result2, evs2) :=
          if action1 == "pushback" then
            let msg := llmFinal.pushbackMessage.getD "When will you do this?"
            let evs2 :=
              if channel == "sms" && pyTruthyStr userSettings.phoneNumber then
                [SendEvent.sms (userSettings.phoneNumber.getD "") msg none]
              else if channel == "push" || channel == "app" then
                [SendEvent.push userId item.name msg (some item.id) none]
              else []
            ({ result1 with pushbackMessage := some msg }, evs2)
          else (result1, [])
        let record : ReminderResponse :=
          { reminderStateId := reminder.id, channel := ch,
            rawResponse := rawResponse, llmInterpretation := llmFinal }
        ({ db2 with responses := db2.responses ++ [record] },
         evs1 ++ evs2, queued, result2)

/-- The actual runtime control flow of `process_reminder_response`:
`LLMService.generate_json` (`src/services/llm.py` line 53) is an `async`
coroutine function, and the call at `src/tasks/reminders.py` line 201 lacks
an `await`, so it returns a coroutine object without raising — the `except`
fallback never runs — and `llm_result.get("action", "pushback")` at line
222 raises `AttributeError` on the coroutine.  The task retries and finally
returns an error dict; the transaction is rolled back, so only the
get-or-create settings commit survives and no `ReminderResponse` row is
written. -/
def process_reminder_response_runtime (db : Store)
    (reminderStateId : Nat) (_channel : String) (_rawResponse : String) :
    Store × List SendEvent × RespResult :=
  match db.reminders.find? (fun r => r.id == reminderStateId) with
  | none => (db, [], { error := some "Reminder state not found" })
  | some reminder =>
  match db.items.find? (fun it => it.id == reminder.itemId) with
  | none => (db, [], { error := some "Item not found" })
  | some item =>
  match db.lists.find? (fun l => l.id == item.listId) with
  | none => (db, [], { error := some "owning list row missing" })
  | some listObj =>
    let (db1, _) := get_or_create_user_settings db listObj.ownerId
    (db1, [],
     { error := some "coroutine object has no attribute get" })

/-- Number of PENDING `ReminderState` rows for a given item. -/
def pending_count (db : Store) (i : Nat) : Nat :=
  List.countP
    (fun r => r.itemId == i && r.status == ReminderStatus.pending)
    db.reminders

/-- The store invariant of the spec: at most one PENDING `ReminderState`
row per item. -/
def pending_invariant (db : Store) : Prop :=
  ∀ i, pending_count db i ≤ 1

/-!
## Concrete fixtures

Small concrete stores used to witness the theorems below on explicit
inputs.  `fixtureItem`/`fixtureDb` is a one-item, one-reminder store whose
owner has default notification settings.
-/

/-- A concrete task item: due at minute 1000 with offset "1h". -/
def fixtureItem : Item :=
  { id := 1, listId := 1, name := "water plants",
    dueDate := some 1000, reminderOffset := some "1h" }

/-- A concrete pending reminder for `fixtureItem`. -/
def fixtureReminder : ReminderState :=
  { id := 2, itemId := 1, nextEscalationAt := some 0 }

/-- A concrete store holding `fixtureItem` and `fixtureReminder`. -/
def fixtureDb : Store :=
  { items := [fixtureItem],
    lists := [{ id := 1, ownerId := 7 }],
    users := [{ id := 7, email := "u@example.com" }],
    reminders := [fixtureReminder],
    settings := [{ userId := 7 }],
    nextItemId := 2, nextReminderId := 3 }

/-- Python's `str.lower()`, character by character (the safe-word
comparison of the spec is case-insensitive). -/
def pyStrLower (s : String) : String := String.mk (s.data.map Char.toLower)

/-- Settings with overnight quiet hours 23:00–07:00 in a UTC-offset-0
zone. -/
def quietSettings : UserNotificationSettings :=
  { userId := 7, quietHoursStart := some 1380, quietHoursEnd := some 420,
    quietHoursTzOffset := some 0 }

/-- `fixtureDb` with the owner in overnight quiet hours. -/
def quietDb : Store :=
  { items := [fixtureItem],
    lists := [{ id := 1, ownerId := 7 }],
    users := [{ id := 7, email := "u@example.com" }],
    reminders := [fixtureReminder],
    settings := [quietSettings],
    nextItemId := 2, nextReminderId := 3 }

/-- A tick environment at local (and UTC) time 23:30 on the epoch day. -/
def quietEnv : Env := { now := 1410 }

/-- C10: for every due date and every malformed `reminder_offset` string —
empty, a prefix that does not parse as a Python integer, or a trailing unit
character other than m/h/d after lowercasing — `_calculate_reminder_time`
returns the due date itself: offset parsing is total and silently degrades
to reminding at the due time. -/
theorem malformed_offset_yields_due_date (due : Int) (offset : String)
    (h : offset = "" ∨ pyInt (String.mk offset.toList.dropLast) = none ∨
      (((offset.toList.getLast?).getD ' ').toLower ≠ 'm' ∧
       ((offset.toList.getLast?).getD ' ').toLower ≠ 'h' ∧
       ((offset.toList.getLast?).getD ' ').toLower ≠ 'd')) :
    calculate_reminder_time due offset = due := by
  unfold calculate_reminder_time
  simp only [String.toList] at h ⊢
  by_cases he : offset = ""
  · simp [he]
  · rcases h with h | h | ⟨hm, hh, hd⟩
    · exact absurd h he
    · simp [he, h]
    · simp only [beq_iff_eq, he, if_false]
      cases hp : pyInt (String.mk offset.data.dropLast) with
      | none => simp [hp]
      | some v => simp [hp, hm, hh, hd]

/-- Witness for C10 at the concrete offsets `"5x"` (bad unit), `"h"` (empty
numeric prefix) and `""`. -/
theorem malformed_offset_yields_due_date_witness :
    calculate_reminder_time 1000 "5x" = 1000 ∧
    calculate_reminder_time 1000 "h" = 1000 ∧
    calculate_reminder_time 1000 "" = 1000 :=
  ⟨malformed_offset_yields_due_date 1000 "5x" (Or.inr (Or.inr (by decide))),
   malformed_offset_yields_due_date 1000 "h" (Or.inr (Or.inl (by decide))),
   malformed_offset_yields_due_date 1000 "" (Or.inl rfl)⟩

/-- C8: `schedule_reminder` computes the first-notification time with the
precedence `reminder_at`, else `due_date − reminder_offset` when both are
set, else `due_date`; with none of these the call reports an error and the
store is unchanged; and when a PENDING reminder already exists for the item
it is updated in place (level reset to 0, `next_escalation_at` set to the
computed time) without creating a second row. -/
theorem schedule_reminder_spec (db : Store) (itemId : Nat) (item : Item)
    (hit : db.items.find? (fun it => it.id == itemId) = some item) :
    (∀ t, item.reminderAt = some t →
      (schedule_reminder db itemId).2.nextEscalationAt = some t) ∧
    (∀ d, item.reminderAt = none → item.dueDate = some d →
      pyTruthyStr item.reminderOffset = true →
      (schedule_reminder db itemId).2.nextEscalationAt =
        some (calculate_reminder_time d (item.reminderOffset.getD ""))) ∧
    (∀ d, item.reminderAt = none → item.dueDate = some d →
      pyTruthyStr item.reminderOffset = false →
      (schedule_reminder db itemId).2.nextEscalationAt = some d) ∧
    (item.reminderAt = none → item.dueDate = none →
      schedule_reminder db itemId =
        (db, { error := some "No due date or reminder time set" })) ∧
    (∀ ex T, db.reminders.find?
        (fun r => r.itemId == itemId && r.status == ReminderStatus.pending) =
          some ex →
      (schedule_reminder db itemId).2.nextEscalationAt = some T →
      (schedule_reminder db itemId).1 =
        updateReminder db ex.id (fun r =>
          { r with nextEscalationAt := some T,
                   currentEscalationLevel := 0 }) ∧
      (schedule_reminder db itemId).1.reminders.length =
        db.reminders.length) := by
  refine ⟨?_, ?_, ?_, ?_, ?_⟩
  · intro t hra
    simp only [schedule_reminder, hit, hra]
    cases hex : db.reminders.find?
        (fun r => r.itemId == itemId && r.status == ReminderStatus.pending) with
    | none => simp [hex]
    | some ex => simp [hex]
  · intro d hra hd hoff
    simp only [schedule_reminder, hit, hra, hd, hoff]
    cases hex : db.reminders.find?
        (fun r => r.itemId == itemId && r.status == ReminderStatus.pending) with
    | none => simp [hex]
    | some ex => simp [hex]
  · intro d hra hd hoff
    simp only [schedule_reminder, hit, hra, hd, hoff]
    cases hex : db.reminders.find?
        (fun r => r.itemId == itemId && r.status == ReminderStatus.pending) with
    | none => simp [hex]
    | some ex => simp [hex]
  · intro hra hd
    simp [schedule_reminder, hit, hra, hd]
  · intro ex T hex hT
    rcases hra : item.reminderAt with _ | t
    · rcases hd : item.dueDate with _ | d
      · simp only [schedule_reminder, hit, hra, hd] at hT
        simp at hT
      · simp only [schedule_reminder, hit, hra, hd, hex] at hT ⊢
        rcases hoff : pyTruthyStr item.reminderOffset with _ | _ <;>
          simp [hoff] at hT ⊢ <;> simp [hT, updateReminder]
    · simp only [schedule_reminder, hit, hra, hex] at hT ⊢
      simp at hT
      simp [hT, updateReminder]

/-- Witness for C8 on `fixtureDb`: the due-minus-offset branch gives
1000 − 60 = 940, and the existing pending row is updated in place. -/
theorem schedule_reminder_spec_witness :
    (schedule_reminder fixtureDb 1).2.nextEscalationAt = some 940 ∧
    (schedule_reminder fixtureDb 1).1.reminders.length = 1 := by
  have h := schedule_reminder_spec fixtureDb 1 fixtureItem (by decide)
  constructor
  · have h2 := h.2.1 1000 rfl rfl (by decide)
    rw [h2]; decide
  · exact ((h.2.2.2.2 fixtureReminder 940 (by decide) (by decide)).2).trans
      (by decide)

/-- C5: a pending, due reminder whose owner is inside the quiet-hours
window (including overnight windows) is skipped by the scheduler
iteration: no channel send is attempted and the store — in particular
`current_escalation_level`, `next_escalation_at` and `last_escalation_at` —
is unchanged, so the reminder is still due on the next tick; when it is the
only reminder, the whole tick is a no-op. -/
theorem quiet_hours_suppression (env : Env) (db : Store) (rid : Nat)
    (reminder : ReminderState) (item : Item) (listObj : ListRec)
    (s : UserNotificationSettings) (evs : List SendEvent)
    (stats : EscalationStats)
    (hr : db.reminders.find? (fun r => r.id == rid) = some reminder)
    (hi : db.items.find? (fun it => it.id == reminder.itemId) = some item)
    (hchk : item.checked = false) (hdel : item.deletedAt = none)
    (hl : db.lists.find? (fun l => l.id == item.listId) = some listObj)
    (hs : db.settings.find? (fun x => x.userId == listObj.ownerId) = some s)
    (hq : is_in_quiet_hours s env.now = true) :
    escalation_step env rid (db, evs, stats) = some (db, evs, stats) ∧
    (db.reminders = [reminder] → reminder_due env.now reminder = true →
      process_escalations env db = (db, [], {})) := by
  have hstep : ∀ evs2 stats2, escalation_step env rid (db, evs2, stats2) =
      some (db, evs2, stats2) := by
    intro evs2 stats2
    simp only [escalation_step, hr, hi, hchk, hdel, hl, hs, hq]
    simp
  refine ⟨hstep evs stats, ?_⟩
  intro hone hdue
  have hrid : reminder.id = rid := by
    have := List.find?_some hr
    simpa using this
  simp only [process_escalations, hone, List.filter, hdue, List.map, hrid]
  simp only [run_escalations, hstep]

/-- Witness for C5: quiet hours 23:00–07:00, tick at local 23:30 — the
tick changes nothing and sends nothing. -/
theorem quiet_hours_suppression_witness :
    escalation_step quietEnv 2 (quietDb, [], {}) = some (quietDb, [], {}) ∧
    process_escalations quietEnv quietDb = (quietDb, [], {}) := by
  have h := quiet_hours_suppression quietEnv quietDb 2 fixtureReminder
    fixtureItem { id := 1, ownerId := 7 } quietSettings [] {} (by decide)
    (by decide) rfl rfl (by decide) (by decide) (by decide)
  exact ⟨h.1, h.2 rfl (by decide)⟩

/-- C6: a pending level-0 reminder that is due and not suppressed by quiet
hours advances to level 1 in one scheduler iteration, with
`next_escalation_at = now + push_to_sms` minutes (5 under default timing)
and `last_escalation_at = now`, and the push send is attempted — whether
the provider reports success or failure (`env.sendOk` is arbitrary), the
ladder advances and is never aborted. -/
theorem level0_advance (env : Env) (db : Store) (rid : Nat)
    (reminder : ReminderState) (item : Item) (listObj : ListRec)
    (sOpt : Option UserNotificationSettings) (evs : List SendEvent)
    (stats : EscalationStats)
    (hr : db.reminders.find? (fun r => r.id == rid) = some reminder)
    (hi : db.items.find? (fun it => it.id == reminder.itemId) = some item)
    (hchk : item.checked = false) (hdel : item.deletedAt = none)
    (hl : db.lists.find? (fun l => l.id == item.listId) = some listObj)
    (hs : db.settings.find? (fun x => x.userId == listObj.ownerId) = sOpt)
    (hq : ∀ s, sOpt = some s → is_in_quiet_hours s env.now = false)
    (hlvl : reminder.currentEscalationLevel = 0) :
    (∃ stats2, escalation_step env rid (db, evs, stats) =
      some (updateReminder db rid (fun r =>
        { r with currentEscalationLevel := 1,
                 lastEscalationAt := some env.now,
                 nextEscalationAt := some (env.now +
                   ((get_escalation_timing sOpt).pushToSms : Int)) }),
        evs ++ [SendEvent.push listObj.ownerId ("Reminder: " ++ item.name)
          (get_reminder_body item
            (match sOpt with
             | some s => s.quietHoursTzOffset
             | none => some americaTorontoOffset))
          (some item.id)
          (some ("/list/" ++ toString listObj.id ++ "?respond="
            ++ toString item.id))], stats2)) ∧
    (get_escalation_timing none).pushToSms = 5 := by
  refine ⟨?_, rfl⟩
  cases sOpt with
  | none =>
    simp only [escalation_step, hr, hi, hchk, hdel, hl, hs, hlvl]
    simp only [Bool.false_or, Bool.or_false, Option.isSome_none,
      beq_self_eq_true, if_true, if_false, hchk, hdel]
    exact ⟨_, rfl⟩
  | some s =>
    have hq2 := hq s rfl
    simp only [escalation_step, hr, hi, hchk, hdel, hl, hs, hq2, hlvl]
    exact ⟨_, rfl⟩

/-- Witness for C6: on `fixtureDb` (default settings, so
`push_to_sms = 5`) a tick at minute 100 advances the level-0 reminder to
level 1 with `next_escalation_at = 105`, attempting one push. -/
theorem level0_advance_witness :
    ∃ stats2, escalation_step { now := 100 } 2 (fixtureDb, [], {}) =
      some (updateReminder fixtureDb 2 (fun r =>
        { r with currentEscalationLevel := 1,
                 lastEscalationAt := some (100 : Int),
                 nextEscalationAt := some (105 : Int) }),
        [SendEvent.push 7 "Reminder: water plants" "Due at 11:40 AM" (some 1)
          (some "/list/1?respond=1")], stats2) := by
  obtain ⟨⟨st, hst⟩, -⟩ := level0_advance { now := 100 } fixtureDb 2
    fixtureReminder fixtureItem { id := 1, ownerId := 7 }
    (some { userId := 7 }) [] {} (by decide) (by decide) rfl rfl (by decide)
    (by decide) (fun s hs => by cases hs; decide) rfl
  refine ⟨st, ?_⟩
  rw [hst]
  simp only [Prod.mk.injEq, Option.some.injEq]
  exact ⟨by decide, by decide, trivial⟩

theorem get_or_create_reminders_eq (db : Store) (u : Nat) :
    (get_or_create_user_settings db u).1.reminders = db.reminders := by
  unfold get_or_create_user_settings
  cases db.settings.find? (fun s => s.userId == u) <;> rfl

theorem get_or_create_users_eq (db : Store) (u : Nat) :
    (get_or_create_user_settings db u).1.users = db.users := by
  unfold get_or_create_user_settings
  cases db.settings.find? (fun s => s.userId == u) <;> rfl

theorem get_or_create_items_eq (db : Store) (u : Nat) :
    (get_or_create_user_settings db u).1.items = db.items := by
  unfold get_or_create_user_settings
  cases db.settings.find? (fun s => s.userId == u) <;> rfl

theorem get_or_create_responses_eq (db : Store) (u : Nat) :
    (get_or_create_user_settings db u).1.responses = db.responses := by
  unfold get_or_create_user_settings
  cases db.settings.find? (fun s => s.userId == u) <;> rfl

/-- C4 (code bug): in the code as written, a classifier failure can never
trigger the deterministic pushback fallback — `LLMService.generate_json` is
an async coroutine function called without `await`, so the call returns a
coroutine without raising and the task later crashes on
`llm_result.get("action", "pushback")`; the run returns an error dict with
no action, no pushback message, no channel send, and no `ReminderResponse`
row (the transaction is rolled back). -/
theorem classifier_error_no_fallback :
    (process_reminder_response_runtime fixtureDb 2 "sms"
      "whenever").2.2.error.isSome = true ∧
    (process_reminder_response_runtime fixtureDb 2 "sms"
      "whenever").2.2.action = none ∧
    (process_reminder_response_runtime fixtureDb 2 "sms"
      "whenever").2.2.pushbackMessage = none ∧
    (process_reminder_response_runtime fixtureDb 2 "sms"
      "whenever").1.responses = fixtureDb.responses ∧
    (process_reminder_response_runtime fixtureDb 2 "sms"
      "whenever").1.reminders = fixtureDb.reminders ∧
    (process_reminder_response_runtime fixtureDb 2 "sms"
      "whenever").2.1 = [] := by
  refine ⟨by decide, by decide, by decide, by decide, by decide, by decide⟩

theorem get_or_create_nextItemId_eq (db : Store) (u : Nat) :
    (get_or_create_user_settings db u).1.nextItemId = db.nextItemId := by
  unfold get_or_create_user_settings
  cases db.settings.find? (fun s => s.userId == u) <;> rfl

theorem get_or_create_nextReminderId_eq (db : Store) (u : Nat) :
    (get_or_create_user_settings db u).1.nextReminderId =
      db.nextReminderId := by
  unfold get_or_create_user_settings
  cases db.settings.find? (fun s => s.userId == u) <;> rfl

theorem pending_count_congr (s1 s2 : Store) (i : Nat)
    (h : s1.reminders = s2.reminders) :
    pending_count s1 i = pending_count s2 i := by
  simp [pending_count, h]

theorem pending_count_updateReminder_le (db : Store) (rid : Nat)
    (f : ReminderState → ReminderState)
    (hid : ∀ r, (f r).itemId = r.itemId)
    (hst : ∀ r, (f r).status = ReminderStatus.pending →
      r.status = ReminderStatus.pending) (i : Nat) :
    pending_count (updateReminder db rid f) i ≤ pending_count db i := by
  unfold pending_count updateReminder
  simp only [List.countP_map]
  apply List.countP_mono_left
  intro x _ hx
  simp only [Function.comp] at hx
  by_cases hc : (x.id == rid) = true
  · simp only [hc, if_true] at hx
    simp only [Bool.and_eq_true, beq_iff_eq] at hx ⊢
    obtain ⟨h1, h2⟩ := hx
    exact ⟨by rw [← hid x]; exact h1, hst x h2⟩
  · rw [if_neg hc] at hx
    exact hx

theorem pending_invariant_updateReminder (db : Store) (rid : Nat)
    (f : ReminderState → ReminderState)
    (hid : ∀ r, (f r).itemId = r.itemId)
    (hst : ∀ r, (f r).status = ReminderStatus.pending →
      r.status = ReminderStatus.pending)
    (h : pending_invariant db) :
    pending_invariant (updateReminder db rid f) := fun i =>
  le_trans (pending_count_updateReminder_le db rid f hid hst i) (h i)

theorem create_next_recurrence_reminders_eq (db : Store) (item : Item) :
    (create_next_recurrence db item).1.reminders = db.reminders := by
  unfold create_next_recurrence
  cases item.recurrencePattern with
  | none => rfl
  | some p => cases p <;> cases item.dueDate <;> rfl

theorem pending_invariant_append (db s2 : Store) (nr : ReminderState)
    (hrem : s2.reminders = db.reminders ++ [nr])
    (hex : db.reminders.find? (fun r =>
      r.itemId == nr.itemId && r.status == ReminderStatus.pending) = none)
    (h : pending_invariant db) : pending_invariant s2 := by
  intro i
  unfold pending_count
  rw [hrem, List.countP_append]
  by_cases hi : i = nr.itemId
  · subst hi
    have h0 : List.countP (fun r =>
        r.itemId == nr.itemId && r.status == ReminderStatus.pending)
        db.reminders = 0 := by
      rw [List.countP_eq_zero]
      intro a ha
      exact List.find?_eq_none.mp hex a ha
    rw [h0]
    have hle : List.countP (fun r =>
        r.itemId == nr.itemId && r.status == ReminderStatus.pending) [nr] ≤
        [nr].length := List.countP_le_length _
    simpa using hle
  · have h1 : List.countP (fun r =>
        r.itemId == i && r.status == ReminderStatus.pending) [nr] = 0 := by
      simp only [List.countP_cons, List.countP_nil]
      have : (nr.itemId == i) = false := by
        simp [beq_eq_false_iff_ne]
        exact fun e => hi e.symm
      simp [this]
    rw [h1]
    have := h i
    unfold pending_count at this
    omega

theorem schedule_reminder_preserves (db : Store) (itemId : Nat)
    (h : pending_invariant db) :
    pending_invariant (schedule_reminder db itemId).1 := by
  have hupd : ∀ (rid : Nat) (T : Int),
      pending_invariant ((updateReminder db rid fun r =>
        { r with nextEscalationAt := some T,
                 currentEscalationLevel := 0 })) :=
    fun rid T => pending_invariant_updateReminder db rid _
      (fun r => rfl) (fun r hr => hr) h
  have happ : ∀ T : Int,
      db.reminders.find? (fun r =>
        r.itemId == itemId && r.status == ReminderStatus.pending) = none →
      pending_invariant { db with
        reminders := db.reminders ++
          [{ id := db.nextReminderId, itemId := itemId,
             currentEscalationLevel := 0, lastEscalationAt := none,
             nextEscalationAt := some T, status := ReminderStatus.pending }],
        nextReminderId := db.nextReminderId + 1 } :=
    fun T hex => pending_invariant_append db _ _ rfl hex h
  unfold schedule_reminder
  cases hit : db.items.find? (fun it => it.id == itemId) with
  | none => simpa using h
  | some item =>
    dsimp only
    cases hra : item.reminderAt with
    | some t =>
      dsimp only
      cases hex : db.reminders.find? (fun r =>
          r.itemId == itemId && r.status == ReminderStatus.pending) with
      | some ex => exact hupd ex.id t
      | none => exact happ t hex
    | none =>
      cases hd : item.dueDate with
      | none => simpa using h
      | some d =>
        dsimp only
        by_cases hoff : pyTruthyStr item.reminderOffset = true
        · rw [if_pos hoff]
          cases hex : db.reminders.find? (fun r =>
              r.itemId == itemId && r.status == ReminderStatus.pending) with
          | some ex => exact hupd ex.id _
          | none => exact happ _ hex
        · rw [if_neg hoff]
          cases hex : db.reminders.find? (fun r =>
              r.itemId == itemId && r.status == ReminderStatus.pending) with
          | some ex => exact hupd ex.id d
          | none => exact happ d hex

theorem escalation_step_preserves (env : Env) (rid : Nat)
    (db db2 : Store) (evs evs2 : List SendEvent)
    (stats stats2 : EscalationStats)
    (hstep : escalation_step env rid (db, evs, stats) =
      some (db2, evs2, stats2))
    (h : pending_invariant db) : pending_invariant db2 := by
  unfold escalation_step at hstep
  dsimp only at hstep
  repeat' split at hstep
  all_goals
    first
      | exact Option.noConfusion hstep
      | (simp only [Option.some.injEq, Prod.mk.injEq] at hstep
         obtain ⟨hdb, -, -⟩ := hstep
         subst hdb
         first
           | exact h
           | exact pending_invariant_updateReminder db _ _
               (fun r => rfl) (fun r hr => hr) h
           | exact pending_invariant_updateReminder db _ _
               (fun r => rfl) (fun r hr => ReminderStatus.noConfusion hr) h)

theorem run_escalations_preserves (env : Env) (ids : List Nat) :
    ∀ acc : Store × List SendEvent × EscalationStats,
    pending_invariant acc.1 →
    pending_invariant (run_escalations env ids acc).1 := by
  induction ids with
  | nil => intro acc h; simpa [run_escalations] using h
  | cons rid rest ih =>
    intro acc h
    unfold run_escalations
    cases hstep : escalation_step env rid acc with
    | none => simpa using h
    | some acc2 =>
      apply ih
      obtain ⟨db, evs, stats⟩ := acc
      obtain ⟨db2, evs2, stats2⟩ := acc2
      exact escalation_step_preserves env rid db db2 evs evs2 stats stats2
        hstep h

theorem process_response_preserves (env : Env) (db : Store) (rid : Nat)
    (channel rawResponse : String) (h : pending_invariant db) :
    pending_invariant
      (process_reminder_response env db rid channel rawResponse).1 := by
  suffices hs : ∃ g, (∀ r, (g r).itemId = r.itemId) ∧
      (∀ r, (g r).status = ReminderStatus.pending →
        r.status = ReminderStatus.pending) ∧
      (process_reminder_response env db rid channel
        rawResponse).1.reminders = db.reminders.map g by
    obtain ⟨g, hid, hst, heq⟩ := hs
    intro i
    have hdb := h i
    unfold pending_count at hdb ⊢
    rw [heq, List.countP_map]
    refine le_trans (List.countP_mono_left ?_) hdb
    intro x _ hx
    simp only [Function.comp] at hx
    simp only [Bool.and_eq_true, beq_iff_eq] at hx ⊢
    obtain ⟨h1, h2⟩ := hx
    exact ⟨by rw [← hid x]; exact h1, hst x h2⟩
  unfold process_reminder_response
  dsimp only
  repeat' split
  all_goals first
    | (refine ⟨fun r => r, fun r => rfl, fun r hr => hr, ?_⟩
       simp [get_or_create_reminders_eq]
       done)
    | (rename _ = some ((_ : Store), (_ : List SendEvent), (_ : List Nat),
         (_ : String), (_ : LLMResult), (_ : RespResult)) => hbr
       repeat' split at hbr
       all_goals first
         | exact Option.noConfusion hbr
         | (simp only [Option.some.injEq, Prod.mk.injEq] at hbr
            obtain ⟨hdb2, -⟩ := hbr
            subst hdb2
            simp only [updateReminder, updateItem,
              get_or_create_reminders_eq,
              create_next_recurrence_reminders_eq]
            first
              | (refine ⟨fun r => r, fun r => rfl, fun r hr => hr, ?_⟩
                 simp
                 done)
              | (refine ⟨_, ?_, ?_, rfl⟩
                 · intro r
                   try dsimp only
                   try split
                   all_goals rfl
                 · intro r hr
                   try dsimp only at hr
                   try split at hr
                   all_goals first
                     | exact hr
                     | exact ReminderStatus.noConfusion hr)))

/-- C7: starting from any store satisfying the at-most-one-PENDING-per-item
invariant, every engine operation preserves it: `schedule_reminder` (which
updates an existing PENDING row in place — the row count is unchanged when
one exists — and creates a fresh one only when none exists), a full
scheduler tick, and reply processing including the recurrence path (which
creates a new item but enqueues, rather than runs, the successor's
`schedule_reminder`; the enqueued call is again covered by the first
conjunct). -/
theorem pending_invariant_per_operation (env : Env) (db : Store)
    (itemId rid : Nat) (channel rawResponse : String)
    (h : pending_invariant db) :
    pending_invariant (schedule_reminder db itemId).1 ∧
    pending_invariant (process_escalations env db).1 ∧
    pending_invariant
      (process_reminder_response env db rid channel rawResponse).1 ∧
    (∀ ex, db.reminders.find? (fun r =>
        r.itemId == itemId && r.status == ReminderStatus.pending) = some ex →
      (schedule_reminder db itemId).1.reminders.length =
        db.reminders.length) := by
  refine ⟨schedule_reminder_preserves db itemId h, ?_,
    process_response_preserves env db rid channel rawResponse h, ?_⟩
  · unfold process_escalations
    exact run_escalations_preserves env _ (db, [], {}) h
  · intro ex hex
    cases hit : db.items.find? (fun it => it.id == itemId) with
    | none => simp [schedule_reminder, hit]
    | some item =>
      rcases hra : item.reminderAt with _ | t
      · rcases hd : item.dueDate with _ | d
        · simp [schedule_reminder, hit, hra, hd]
        · rcases hoff : pyTruthyStr item.reminderOffset with _ | _ <;>
            simp [schedule_reminder, hit, hra, hd, hoff, hex, updateReminder]
      · simp [schedule_reminder, hit, hra, hex, updateReminder]

/-- Witness for C7 on `fixtureDb`, whose single reminder trivially
satisfies the invariant. -/
theorem pending_invariant_per_operation_witness :
    pending_invariant (schedule_reminder fixtureDb 1).1 ∧
    pending_invariant (process_escalations { now := 100 } fixtureDb).1 ∧
    pending_invariant (process_reminder_response { now := 100 } fixtureDb 2
      "sms" "done").1 ∧
    (schedule_reminder fixtureDb 1).1.reminders.length = 1 := by
  have hinv : pending_invariant fixtureDb := by
    intro i
    exact le_trans (List.countP_le_length _) (by decide)
  have h := pending_invariant_per_operation { now := 100 } fixtureDb 1 2
    "sms" "done" hinv
  exact ⟨h.1, h.2.1, h.2.2.1,
    (h.2.2.2 fixtureReminder (by decide)).trans (by decide)⟩

/-- C1 (amended): processing a reply never yields action `escape`.  There
is no deterministic safe-word check anywhere in `process_reminder_response`
— safe-word detection exists only as an instruction inside the classifier
prompt — and in the program as written no classification happens at all:
the unawaited classifier call makes every run raise at reminders.py line
222 and roll back, returning an error dict with no action and leaving the
reminder rows (hence the PENDING status) unchanged.  The safe-word
hypothesis scopes the statement to the claim's replies, equal to the
owner's configured safe word up to letter case; the run ignores the text. -/
theorem reply_processing_never_escapes (db : Store) (rid : Nat)
    (channel rawResponse : String) (reminder : ReminderState) (item : Item)
    (listObj : ListRec)
    (hr : db.reminders.find? (fun r => r.id == rid) = some reminder)
    (hi : db.items.find? (fun it => it.id == reminder.itemId) = some item)
    (hl : db.lists.find? (fun l => l.id == item.listId) = some listObj)
    (_hsafe : pyStrLower rawResponse = pyStrLower (pyOrStr
      ((get_or_create_user_settings db listObj.ownerId).2.escapeSafeWord)
      "abort")) :
    (process_reminder_response_runtime db rid channel
      rawResponse).2.2.error.isSome = true ∧
    (process_reminder_response_runtime db rid channel
      rawResponse).2.2.action = none ∧
    (process_reminder_response_runtime db rid channel
      rawResponse).1.reminders = db.reminders ∧
    (process_reminder_response_runtime db rid channel rawResponse).2.1
      = [] := by
  simp only [process_reminder_response_runtime, hr, hi, hl]
  simp [get_or_create_reminders_eq]

/-- Witness for the amended C1: the reply "ABORT" equals the fixture
owner's safe word "abort" up to case, and processing it errors out with the
reminder rows untouched. -/
theorem reply_processing_never_escapes_witness :
    (process_reminder_response_runtime fixtureDb 2 "sms"
      "ABORT").2.2.error.isSome = true ∧
    (process_reminder_response_runtime fixtureDb 2 "sms"
      "ABORT").1.reminders = fixtureDb.reminders :=
  let h := reply_processing_never_escapes fixtureDb 2 "sms" "ABORT"
    fixtureReminder fixtureItem { id := 1, ownerId := 7 } (by decide)
    (by decide) (by decide) (by decide)
  ⟨h.1, h.2.2.1⟩

/-- Counterexample to C1 as stated: the raw reply "abort" equals the
owner's configured safe word, the classifier call fails deterministically
(it is a coroutine that is never awaited), yet processing does not yield
action `escape`: the run returns an error dict with no action and the
reminder is left PENDING, not ESCAPED. -/
theorem safe_word_escape_counterexample :
    pyStrLower "abort" = pyStrLower (pyOrStr (get_or_create_user_settings
      fixtureDb 7).2.escapeSafeWord "abort") ∧
    (process_reminder_response_runtime fixtureDb 2 "sms"
      "abort").2.2.error.isSome = true ∧
    (process_reminder_response_runtime fixtureDb 2 "sms"
      "abort").2.2.action = none ∧
    (process_reminder_response_runtime fixtureDb 2 "sms"
      "abort").1.reminders = [fixtureReminder] ∧
    fixtureReminder.status = ReminderStatus.pending := by
  refine ⟨by decide, by decide, by decide, by decide, by decide⟩

/-- C3 (code bug): the reschedule branch (reminders.py lines 235–249) is
unreachable — every reply-processing run raises at line 222 before any
classification, so `next_escalation_at` is never set from a classifier
timestamp, the level is never reset, and no pushback follow-up is sent
either: the task errors out with the reminder row exactly as it was. -/
theorem reschedule_never_applied :
    (process_reminder_response_runtime fixtureDb 2 "sms"
      "tomorrow at 3pm").2.2.error.isSome = true ∧
    (process_reminder_response_runtime fixtureDb 2 "sms"
      "tomorrow at 3pm").2.2.newReminderAt = none ∧
    (process_reminder_response_runtime fixtureDb 2 "sms"
      "tomorrow at 3pm").2.2.pushbackMessage = none ∧
    (process_reminder_response_runtime fixtureDb 2 "sms"
      "tomorrow at 3pm").1.reminders = [fixtureReminder] ∧
    fixtureReminder.nextEscalationAt = some 0 ∧
    fixtureReminder.currentEscalationLevel = 0 ∧
    (process_reminder_response_runtime fixtureDb 2 "sms"
      "tomorrow at 3pm").2.1 = [] := by
  refine ⟨by decide, by decide, by decide, by decide, by decide, by decide,
    by decide⟩

/-- C9 (code bug): the complete branch (reminders.py lines 225–233) is
unreachable — the run crashes at line 222 before it, so a "complete" reply
never marks the item checked nor the reminder COMPLETED; the item list is
untouched (so, vacuously, no successor appears either, but not for the
reason the claim gives). -/
theorem complete_never_applied :
    fixtureItem.recurrencePattern = none ∧
    (process_reminder_response_runtime fixtureDb 2 "app"
      "done").2.2.error.isSome = true ∧
    (process_reminder_response_runtime fixtureDb 2 "app"
      "done").1.items = [fixtureItem] ∧
    fixtureItem.checked = false ∧
    (process_reminder_response_runtime fixtureDb 2 "app"
      "done").1.reminders = [fixtureReminder] ∧
    fixtureReminder.status = ReminderStatus.pending := by
  refine ⟨by decide, by decide, by decide, by decide, by decide, by decide⟩
